import Mathlib

/-!
Shallow embedding of the implot-rs safety wrapper (`src/lib.rs`).

The crate is a thin safe layer over the native implot engine: it converts
a closed `YAxisChoice` enum (plus `Option` for "auto") to the engine's
integer axis codes, disciplines the engine's two style-override stacks
through single-use tokens, and marshals coordinate/query calls.  The
native engine itself is external; it is modelled here as an explicit
`EngineState` (the two override stacks, the most-recent-plot data, and a
log of every native call the wrapper issues), and each `sys::ImPlot_*`
primitive becomes a state transformer on it.  Rust `f32`/`f64` values are
carried opaquely (the wrapper performs no arithmetic on them), so they
are represented by `Rat`, which has decidable equality and a zero.
-/

namespace Implot

/-- Carrier for Rust `f32` values: the wrapper only marshals them, never
computes with them, so an exact carrier with decidable equality is faithful. -/
abbrev F32 := Rat

/-- Carrier for Rust `f64` values, marshalled opaquely like `F32`. -/
abbrev F64 := Rat

/-- `sys::ImVec2`: a 2-component pixel-space vector. -/
structure ImVec2 where
  x : F32
  y : F32
deriving DecidableEq

/-- `sys::ImVec4`: a 4-component vector, used for RGBA colors. -/
structure ImVec4 where
  x : F32
  y : F32
  z : F32
  w : F32
deriving DecidableEq

/-- `sys::ImPlotPoint`: a point in plot-space coordinates (f64 in Rust). -/
structure ImPlotPoint where
  x : F64
  y : F64
deriving DecidableEq

/-- `sys::ImPlotRange`: a min/max range on one axis. -/
structure ImPlotRange where
  Min : F64
  Max : F64
deriving DecidableEq

/-- `sys::ImPlotLimits`: an X range and a Y range forming a rectangle. -/
structure ImPlotLimits where
  X : ImPlotRange
  Y : ImPlotRange
deriving DecidableEq

/-- `const IMPLOT_AUTO: i32 = -1;` — the sentinel meaning
"use whichever Y axis is currently active". -/
def IMPLOT_AUTO : Int := -1

/-- `pub enum YAxisChoice { First, Second, Third }` — the closed set of
selectable Y axes. -/
inductive YAxisChoice
  | First
  | Second
  | Third
deriving DecidableEq, Fintype

/-- Modelled from the spec: the discriminant values
`sys::ImPlotYAxis__ImPlotYAxis_{1,2,3}` come from the `implot-sys` crate,
which is not under `src/`; the spec says each concrete variant maps to a
corresponding fixed small non-negative code, so they are taken as 0, 1, 2
in declaration order (`choice as i32` in Rust). -/
def YAxisChoice.toNative : YAxisChoice → Int
  | .First => 0
  | .Second => 1
  | .Third => 2

/-- `fn y_axis_choice_option_to_i32(y_axis_choice: Option<YAxisChoice>) -> i32`:
turns an `Option<YAxisChoice>` into an i32, picking `IMPLOT_AUTO` for `None`. -/
def y_axis_choice_option_to_i32 : Option YAxisChoice → Int
  | some choice => choice.toNative
  | none => IMPLOT_AUTO

/-- `pub enum PlotColorElement { ... }` — the closed set of colorable plot
elements, in the declaration order of `src/lib.rs`. -/
inductive PlotColorElement
  | Line
  | Fill
  | MarkerOutline
  | MarkerFill
  | ErrorBar
  | FrameBg
  | PlotBg
  | PlotBorder
  | LegendBackground
  | LegendBorder
  | LegendText
  | TitleText
  | InlayText
  | XAxis
  | XAxisGrid
  | YAxis
  | YAxisGrid
  | YAxis2
  | YAxisGrid2
  | YAxis3
  | YAxisGrid3
  | Selection
  | Crosshairs
  | Query
deriving DecidableEq, Fintype

/-- Modelled from the spec: the discriminants `sys::ImPlotCol__ImPlotCol_*`
live in the `implot-sys` crate, not under `src/`; the spec treats them as a
fixed per-variant native code, taken here as sequential values in
declaration order (`*element as sys::ImPlotCol` in Rust). -/
def PlotColorElement.toNative : PlotColorElement → Int
  | .Line => 0
  | .Fill => 1
  | .MarkerOutline => 2
  | .MarkerFill => 3
  | .ErrorBar => 4
  | .FrameBg => 5
  | .PlotBg => 6
  | .PlotBorder => 7
  | .LegendBackground => 8
  | .LegendBorder => 9
  | .LegendText => 10
  | .TitleText => 11
  | .InlayText => 12
  | .XAxis => 13
  | .XAxisGrid => 14
  | .YAxis => 15
  | .YAxisGrid => 16
  | .YAxis2 => 17
  | .YAxisGrid2 => 18
  | .YAxis3 => 19
  | .YAxisGrid3 => 20
  | .Selection => 21
  | .Crosshairs => 22
  | .Query => 23

/-- `pub enum StyleVar { ... }` — the closed set of style variables, in the
declaration order of `src/lib.rs`. -/
inductive StyleVar
  | LineWeight
  | Marker
  | MarkerSize
  | MarkerWeight
  | FillAlpha
  | ErrorBarSize
  | ErrorBarWeight
  | DigitalBitHeight
  | DigitalBitGap
  | PlotBorderSize
  | MinorAlpha
  | MajorTickLen
  | MinorTickLen
  | MajorTickSize
  | MinorTickSize
  | MajorGridSize
  | MinorGridSize
  | PlotPadding
  | LabelPadding
  | LegendPadding
  | LegendInnerPadding
  | LegendSpacing
  | MousePosPadding
  | AnnotationPadding
  | PlotDefaultSize
  | PlotMinSize
deriving DecidableEq, Fintype

/-- Modelled from the spec: the discriminants `sys::ImPlotStyleVar__*` are in
the `implot-sys` crate, not under `src/`; taken as sequential native codes in
declaration order (`*element as sys::ImPlotStyleVar` in Rust). -/
def StyleVar.toNative : StyleVar → Int
  | .LineWeight => 0
  | .Marker => 1
  | .MarkerSize => 2
  | .MarkerWeight => 3
  | .FillAlpha => 4
  | .ErrorBarSize => 5
  | .ErrorBarWeight => 6
  | .DigitalBitHeight => 7
  | .DigitalBitGap => 8
  | .PlotBorderSize => 9
  | .MinorAlpha => 10
  | .MajorTickLen => 11
  | .MinorTickLen => 12
  | .MajorTickSize => 13
  | .MinorTickSize => 14
  | .MajorGridSize => 15
  | .MinorGridSize => 16
  | .PlotPadding => 17
  | .LabelPadding => 18
  | .LegendPadding => 19
  | .LegendInnerPadding => 20
  | .LegendSpacing => 21
  | .MousePosPadding => 22
  | .AnnotationPadding => 23
  | .PlotDefaultSize => 24
  | .PlotMinSize => 25

/-- The payload shape a `StyleVar` is documented (not type-checked) to expect. -/
inductive StyleVarKind
  | floatKind
  | intKind
  | vec2Kind
deriving DecidableEq

/-- The documented payload shape of each style variable, read off the doc
comments in `src/lib.rs` (`f32`, `u32`, or `ImVec2`). The push entry points
never consult this. -/
def StyleVar.kind : StyleVar → StyleVarKind
  | .LineWeight => .floatKind
  | .Marker => .intKind
  | .MarkerSize => .floatKind
  | .MarkerWeight => .floatKind
  | .FillAlpha => .floatKind
  | .ErrorBarSize => .floatKind
  | .ErrorBarWeight => .floatKind
  | .DigitalBitHeight => .floatKind
  | .DigitalBitGap => .floatKind
  | .PlotBorderSize => .floatKind
  | .MinorAlpha => .floatKind
  | .MajorTickLen => .vec2Kind
  | .MinorTickLen => .vec2Kind
  | .MajorTickSize => .vec2Kind
  | .MinorTickSize => .vec2Kind
  | .MajorGridSize => .vec2Kind
  | .MinorGridSize => .vec2Kind
  | .PlotPadding => .vec2Kind
  | .LabelPadding => .vec2Kind
  | .LegendPadding => .vec2Kind
  | .LegendInnerPadding => .vec2Kind
  | .LegendSpacing => .vec2Kind
  | .MousePosPadding => .vec2Kind
  | .AnnotationPadding => .vec2Kind
  | .PlotDefaultSize => .vec2Kind
  | .PlotMinSize => .vec2Kind

/-- One entry on the engine's native style-variable override stack, tagged by
the payload shape of the native push that created it. -/
inductive VarEntry
  | floatVal (code : Int) (value : F32)
  | intVal (code : Int) (value : Int)
  | vec2Val (code : Int) (value : ImVec2)
deriving DecidableEq

/-- A record of one native (`sys::ImPlot_*`) call issued by the wrapper, with
the arguments it passed across the FFI boundary. -/
inductive NativeCall
  | pushStyleColorVec4 (code : Int) (color : ImVec4)
  | popStyleColor (count : Int)
  | pushStyleVarFloat (code : Int) (value : F32)
  | pushStyleVarInt (code : Int) (value : Int)
  | pushStyleVarVec2 (code : Int) (value : ImVec2)
  | popStyleVar (count : Int)
  | getPlotMousePos (axis : Int)
  | pixelsToPlotVec2 (pixel : ImVec2) (axis : Int)
  | pixelsToPlotFloat (px py : F32) (axis : Int)
  | plotToPixelsPoint (point : ImPlotPoint) (axis : Int)
  | plotToPixelsDouble (px py : F64) (axis : Int)
  | getPlotLimits (axis : Int)
  | getPlotQuery (axis : Int)
  | setPlotYAxis (axis : Int)
  | isPlotYAxisHovered (axis : Int)
deriving DecidableEq

/-- Modelled from the spec: the data the external engine holds for "the
current or most recent plot" (§3 PlottingSession) — what each query call
would write into the caller's output buffer, as a function of the native
axis code passed. -/
structure PlotData where
  mousePos : Int → ImPlotPoint
  pixelsToPlotV : ImVec2 → Int → ImPlotPoint
  pixelsToPlotF : F32 → F32 → Int → ImPlotPoint
  plotToPixelsP : ImPlotPoint → Int → ImVec2
  plotToPixelsD : F64 → F64 → Int → ImVec2
  limits : Int → ImPlotLimits
  query : Int → ImPlotLimits
  yAxisHovered : Int → Bool

/-- Modelled from the spec: the external engine's global state (§6) — its two
override stacks, the most-recent-plot data (`none` when no plotting bracket
has ever executed), and a log of every native call the wrapper issues. -/
structure EngineState where
  colorStack : List (Int × ImVec4)
  varStack : List VarEntry
  plot : Option PlotData
  calls : List NativeCall

/-- A fresh engine: empty stacks, no plot bracket has ever run, no calls. -/
def initialEngine : EngineState :=
  { colorStack := [], varStack := [], plot := none, calls := [] }

-- Native engine primitives, modelled from the spec (§6): each is a state
-- transformer that records the call it was issued with.  The query
-- primitives take the wrapper's zero-initialized output buffer and, per
-- §4.3/§7, leave it unchanged (zeroed/stale) when no plot bracket has ever
-- executed.

/-- Modelled from the spec: `push_color_override(code, r,g,b,a)` appends one
entry to the engine's color-override stack. -/
def ImPlot_PushStyleColorVec4 (code : Int) (color : ImVec4) (s : EngineState) :
    EngineState :=
  { s with
    colorStack := (code, color) :: s.colorStack
    calls := s.calls ++ [.pushStyleColorVec4 code color] }

/-- Modelled from the spec: `pop_color_override(count)` removes `count`
entries from the engine's color-override stack. -/
def ImPlot_PopStyleColor (count : Int) (s : EngineState) : EngineState :=
  { s with
    colorStack := s.colorStack.drop count.toNat
    calls := s.calls ++ [.popStyleColor count] }

/-- Modelled from the spec: `push_var_override_float(code, value)`. -/
def ImPlot_PushStyleVarFloat (code : Int) (value : F32) (s : EngineState) :
    EngineState :=
  { s with
    varStack := .floatVal code value :: s.varStack
    calls := s.calls ++ [.pushStyleVarFloat code value] }

/-- Modelled from the spec: `push_var_override_int(code, value)`. -/
def ImPlot_PushStyleVarInt (code : Int) (value : Int) (s : EngineState) :
    EngineState :=
  { s with
    varStack := .intVal code value :: s.varStack
    calls := s.calls ++ [.pushStyleVarInt code value] }

/-- Modelled from the spec: `push_var_override_vec2(code, value)`. -/
def ImPlot_PushStyleVarVec2 (code : Int) (value : ImVec2) (s : EngineState) :
    EngineState :=
  { s with
    varStack := .vec2Val code value :: s.varStack
    calls := s.calls ++ [.pushStyleVarVec2 code value] }

/-- Modelled from the spec: `pop_var_override(count)` removes `count` entries
from the engine's variable-override stack. -/
def ImPlot_PopStyleVar (count : Int) (s : EngineState) : EngineState :=
  { s with
    varStack := s.varStack.drop count.toNat
    calls := s.calls ++ [.popStyleVar count] }

/-- Modelled from the spec: `ImPlot_GetPlotMousePos(out, axis)` writes the
most recent plot's mouse position into the buffer; with no plot ever run it
leaves the caller's (zero-initialized) buffer unchanged rather than failing. -/
def ImPlot_GetPlotMousePos (buffer : ImPlotPoint) (axis : Int) (s : EngineState) :
    ImPlotPoint × EngineState :=
  ((match s.plot with
    | some p => p.mousePos axis
    | none => buffer),
   { s with calls := s.calls ++ [.getPlotMousePos axis] })

/-- Modelled from the spec: `ImPlot_PixelsToPlotVec2(out, pixel, axis)`. -/
def ImPlot_PixelsToPlotVec2 (buffer : ImPlotPoint) (pixel : ImVec2) (axis : Int)
    (s : EngineState) : ImPlotPoint × EngineState :=
  ((match s.plot with
    | some p => p.pixelsToPlotV pixel axis
    | none => buffer),
   { s with calls := s.calls ++ [.pixelsToPlotVec2 pixel axis] })

/-- Modelled from the spec: `ImPlot_PixelsToPlotFloat(out, x, y, axis)`. -/
def ImPlot_PixelsToPlotFloat (buffer : ImPlotPoint) (px py : F32) (axis : Int)
    (s : EngineState) : ImPlotPoint × EngineState :=
  ((match s.plot with
    | some p => p.pixelsToPlotF px py axis
    | none => buffer),
   { s with calls := s.calls ++ [.pixelsToPlotFloat px py axis] })

/-- Modelled from the spec: `ImPlot_PlotToPixelsPlotPoInt(out, point, axis)`. -/
def ImPlot_PlotToPixelsPlotPoInt (buffer : ImVec2) (point : ImPlotPoint)
    (axis : Int) (s : EngineState) : ImVec2 × EngineState :=
  ((match s.plot with
    | some p => p.plotToPixelsP point axis
    | none => buffer),
   { s with calls := s.calls ++ [.plotToPixelsPoint point axis] })

/-- Modelled from the spec: `ImPlot_PlotToPixelsdouble(out, x, y, axis)`. -/
def ImPlot_PlotToPixelsdouble (buffer : ImVec2) (px py : F64) (axis : Int)
    (s : EngineState) : ImVec2 × EngineState :=
  ((match s.plot with
    | some p => p.plotToPixelsD px py axis
    | none => buffer),
   { s with calls := s.calls ++ [.plotToPixelsDouble px py axis] })

/-- Modelled from the spec: `ImPlot_GetPlotLimits(out, axis)`. -/
def ImPlot_GetPlotLimits (buffer : ImPlotLimits) (axis : Int) (s : EngineState) :
    ImPlotLimits × EngineState :=
  ((match s.plot with
    | some p => p.limits axis
    | none => buffer),
   { s with calls := s.calls ++ [.getPlotLimits axis] })

/-- Modelled from the spec: `ImPlot_GetPlotQuery(out, axis)`. -/
def ImPlot_GetPlotQuery (buffer : ImPlotLimits) (axis : Int) (s : EngineState) :
    ImPlotLimits × EngineState :=
  ((match s.plot with
    | some p => p.query axis
    | none => buffer),
   { s with calls := s.calls ++ [.getPlotQuery axis] })

/-- Modelled from the spec: `ImPlot_SetPlotYAxis(axis)` mutates the engine's
implicit current-axis state (kept inside `PlotData`, opaque here). -/
def ImPlot_SetPlotYAxis (axis : Int) (s : EngineState) : EngineState :=
  { s with calls := s.calls ++ [.setPlotYAxis axis] }

/-- Modelled from the spec: `ImPlot_IsPlotYAxisHovered(axis)`; `false`
(zeroed) when no plot bracket has ever executed. -/
def ImPlot_IsPlotYAxisHovered (axis : Int) (s : EngineState) :
    Bool × EngineState :=
  ((match s.plot with
    | some p => p.yAxisHovered axis
    | none => false),
   { s with calls := s.calls ++ [.isPlotYAxisHovered axis] })

-- --- Push/pop utils (the wrapper layer, from src/lib.rs) --------------------

/-- `pub struct StyleColorToken { was_popped: bool }` — tracks a change pushed
to the style color stack. -/
structure StyleColorToken where
  was_popped : Bool
deriving DecidableEq

/-- `pub struct StyleVarToken { was_popped: bool }` — tracks a change pushed
to the style variable stack. -/
structure StyleVarToken where
  was_popped : Bool
deriving DecidableEq

/-- `pub fn push_style_color(element, red, green, blue, alpha) -> StyleColorToken`:
issues `ImPlot_PushStyleColorVec4` and returns a fresh token. -/
def push_style_color (element : PlotColorElement) (red green blue alpha : F32)
    (s : EngineState) : StyleColorToken × EngineState :=
  let s := ImPlot_PushStyleColorVec4 element.toNative
    { x := red, y := green, z := blue, w := alpha } s
  (⟨false⟩, s)

/-- `StyleColorToken::pop(mut self)`: panics (modelled as `.error`) if the
token was already popped, otherwise issues `ImPlot_PopStyleColor(1)`. -/
def StyleColorToken.pop (t : StyleColorToken) (s : EngineState) :
    Except String EngineState :=
  if t.was_popped then
    .error "Attempted to pop a style color token twice."
  else
    .ok (ImPlot_PopStyleColor 1 s)

/-- `StyleColorToken` has no `Drop` implementation in `src/lib.rs`, so letting
a token go out of scope unconsumed performs no action at all. -/
def StyleColorToken.dropUnused (_t : StyleColorToken) (s : EngineState) :
    EngineState :=
  s

/-- `pub fn push_style_var_f32(element, value) -> StyleVarToken`:
issues `ImPlot_PushStyleVarFloat` and returns a fresh token. -/
def push_style_var_f32 (element : StyleVar) (value : F32) (s : EngineState) :
    StyleVarToken × EngineState :=
  let s := ImPlot_PushStyleVarFloat element.toNative value s
  (⟨false⟩, s)

/-- `pub fn push_style_var_i32(element, value) -> StyleVarToken`:
issues `ImPlot_PushStyleVarInt` and returns a fresh token. -/
def push_style_var_i32 (element : StyleVar) (value : Int) (s : EngineState) :
    StyleVarToken × EngineState :=
  let s := ImPlot_PushStyleVarInt element.toNative value s
  (⟨false⟩, s)

/-- `pub fn push_style_var_imvec2(element, value) -> StyleVarToken`:
issues `ImPlot_PushStyleVarVec2` and returns a fresh token. -/
def push_style_var_imvec2 (element : StyleVar) (value : ImVec2)
    (s : EngineState) : StyleVarToken × EngineState :=
  let s := ImPlot_PushStyleVarVec2 element.toNative value s
  (⟨false⟩, s)

/-- `StyleVarToken::pop(mut self)`: panics (modelled as `.error`) if the token
was already popped, otherwise issues `ImPlot_PopStyleVar(1)`. -/
def StyleVarToken.pop (t : StyleVarToken) (s : EngineState) :
    Except String EngineState :=
  if t.was_popped then
    .error "Attempted to pop a style var token twice."
  else
    .ok (ImPlot_PopStyleVar 1 s)

/-- `StyleVarToken` has no `Drop` implementation in `src/lib.rs`, so letting
a token go out of scope unconsumed performs no action at all. -/
def StyleVarToken.dropUnused (_t : StyleVarToken) (s : EngineState) :
    EngineState :=
  s

-- --- Miscellaneous (the CoordinateBridge layer, from src/lib.rs) ------------

/-- `pub fn get_plot_mouse_position(y_axis_choice) -> ImPlotPoint`: converts
the axis choice with `y_axis_choice_option_to_i32`, zero-initializes the
output point, and passes the engine's write back unchanged. -/
def get_plot_mouse_position (y_axis_choice : Option YAxisChoice)
    (s : EngineState) : ImPlotPoint × EngineState :=
  let y_axis_choice_i32 := y_axis_choice_option_to_i32 y_axis_choice
  let point : ImPlotPoint := { x := 0, y := 0 }
  ImPlot_GetPlotMousePos point y_axis_choice_i32 s

/-- `pub fn pixels_to_plot_vec2(pixel_position, y_axis_choice) -> ImPlotPoint`. -/
def pixels_to_plot_vec2 (pixel_position : ImVec2)
    (y_axis_choice : Option YAxisChoice) (s : EngineState) :
    ImPlotPoint × EngineState :=
  let y_axis_choice_i32 := y_axis_choice_option_to_i32 y_axis_choice
  let point : ImPlotPoint := { x := 0, y := 0 }
  ImPlot_PixelsToPlotVec2 point pixel_position y_axis_choice_i32 s

/-- `pub fn pixels_to_plot_f32(pixel_position_x, pixel_position_y,
y_axis_choice) -> ImPlotPoint`. -/
def pixels_to_plot_f32 (pixel_position_x pixel_position_y : F32)
    (y_axis_choice : Option YAxisChoice) (s : EngineState) :
    ImPlotPoint × EngineState :=
  let y_axis_choice_i32 := y_axis_choice_option_to_i32 y_axis_choice
  let point : ImPlotPoint := { x := 0, y := 0 }
  ImPlot_PixelsToPlotFloat point pixel_position_x pixel_position_y
    y_axis_choice_i32 s

/-- `pub fn plot_to_pixels_vec2(plot_position, y_axis_choice) -> ImVec2`. -/
def plot_to_pixels_vec2 (plot_position : ImPlotPoint)
    (y_axis_choice : Option YAxisChoice) (s : EngineState) :
    ImVec2 × EngineState :=
  let y_axis_choice_i32 := y_axis_choice_option_to_i32 y_axis_choice
  let pixel_position : ImVec2 := { x := 0, y := 0 }
  ImPlot_PlotToPixelsPlotPoInt pixel_position plot_position y_axis_choice_i32 s

/-- `pub fn plot_to_pixels_f32(plot_position_x, plot_position_y,
y_axis_choice) -> ImVec2`. -/
def plot_to_pixels_f32 (plot_position_x plot_position_y : F64)
    (y_axis_choice : Option YAxisChoice) (s : EngineState) :
    ImVec2 × EngineState :=
  let y_axis_choice_i32 := y_axis_choice_option_to_i32 y_axis_choice
  let pixel_position : ImVec2 := { x := 0, y := 0 }
  ImPlot_PlotToPixelsdouble pixel_position plot_position_x plot_position_y
    y_axis_choice_i32 s

/-- The zero-initialized limits buffer used by `get_plot_limits` and
`get_plot_query` in `src/lib.rs`. -/
def zeroLimits : ImPlotLimits :=
  { X := { Min := 0, Max := 0 }, Y := { Min := 0, Max := 0 } }

/-- `pub fn get_plot_limits(y_axis_choice) -> ImPlotLimits`. -/
def get_plot_limits (y_axis_choice : Option YAxisChoice) (s : EngineState) :
    ImPlotLimits × EngineState :=
  let y_axis_choice_i32 := y_axis_choice_option_to_i32 y_axis_choice
  ImPlot_GetPlotLimits zeroLimits y_axis_choice_i32 s

/-- `pub fn get_plot_query(y_axis_choice) -> ImPlotLimits`. -/
def get_plot_query (y_axis_choice : Option YAxisChoice) (s : EngineState) :
    ImPlotLimits × EngineState :=
  let y_axis_choice_i32 := y_axis_choice_option_to_i32 y_axis_choice
  ImPlot_GetPlotQuery zeroLimits y_axis_choice_i32 s

/-- `pub fn set_plot_y_axis(y_axis_choice)`: note this one takes a bare
`YAxisChoice` and casts it directly (`y_axis_choice as i32`). -/
def set_plot_y_axis (y_axis_choice : YAxisChoice) (s : EngineState) :
    EngineState :=
  ImPlot_SetPlotYAxis y_axis_choice.toNative s

/-- `pub fn is_plot_y_axis_hovered(y_axis_choice) -> bool`. -/
def is_plot_y_axis_hovered (y_axis_choice : Option YAxisChoice)
    (s : EngineState) : Bool × EngineState :=
  let y_axis_choice_i32 := y_axis_choice_option_to_i32 y_axis_choice
  ImPlot_IsPlotYAxisHovered y_axis_choice_i32 s

-- --- Safe-API client programs (ownership discipline of the token types) -----

/-- A token currently owned (live) by client code: returned by a push and not
yet consumed by `pop`.  Rust's move semantics mean `pop` takes the token by
value, so a client can only ever pop a token it still owns. -/
inductive LiveToken
  | colorTok (t : StyleColorToken)
  | varTok (t : StyleVarToken)
deriving DecidableEq

/-- One action a safe-API client program can take.  `popTok i` pops the
`i`-th still-owned token; because Rust `pop` consumes its receiver, a popped
token leaves the owned set and cannot be named again. -/
inductive Action
  | pushColor (element : PlotColorElement) (r g b a : F32)
  | pushVarF32 (element : StyleVar) (value : F32)
  | pushVarI32 (element : StyleVar) (value : Int)
  | pushVarVec2 (element : StyleVar) (value : ImVec2)
  | popTok (i : Nat)
deriving DecidableEq

/-- The engine state together with the tokens the client still owns. -/
structure ApiState where
  engine : EngineState
  live : List LiveToken

/-- A token is fresh when its consumed flag is still unset. -/
def LiveToken.fresh : LiveToken → Prop
  | .colorTok t => t.was_popped = false
  | .varTok t => t.was_popped = false

/-- Execute one safe-API action.  Popping an index the client does not own
corresponds to no Rust program at all (the token value does not exist), so it
is a no-op here. -/
def step (a : Action) (st : ApiState) : Except String ApiState :=
  match a with
  | .pushColor e r g b alp =>
      let res := push_style_color e r g b alp st.engine
      .ok ⟨res.2, st.live ++ [.colorTok res.1]⟩
  | .pushVarF32 e v =>
      let res := push_style_var_f32 e v st.engine
      .ok ⟨res.2, st.live ++ [.varTok res.1]⟩
  | .pushVarI32 e v =>
      let res := push_style_var_i32 e v st.engine
      .ok ⟨res.2, st.live ++ [.varTok res.1]⟩
  | .pushVarVec2 e v =>
      let res := push_style_var_imvec2 e v st.engine
      .ok ⟨res.2, st.live ++ [.varTok res.1]⟩
  | .popTok i =>
      match st.live[i]? with
      | none => .ok st
      | some (.colorTok t) =>
          match StyleColorToken.pop t st.engine with
          | .ok s => .ok ⟨s, st.live.eraseIdx i⟩
          | .error e => .error e
      | some (.varTok t) =>
          match StyleVarToken.pop t st.engine with
          | .ok s => .ok ⟨s, st.live.eraseIdx i⟩
          | .error e => .error e

/-- Execute a whole client program, stopping at the first panic. -/
def runProgram : List Action → ApiState → Except String ApiState
  | [], st => .ok st
  | a :: rest, st =>
      match step a st with
      | .ok st' => runProgram rest st'
      | .error e => .error e

lemma mem_of_mem_eraseIdx {α : Type} :
    ∀ (l : List α) (i : Nat) (a : α), a ∈ l.eraseIdx i → a ∈ l := by
  intro l
  induction l with
  | nil => intro i a h; simp [List.eraseIdx] at h
  | cons x xs ih =>
    intro i a h
    cases i with
    | zero => exact List.mem_cons_of_mem _ h
    | succ n =>
      rcases List.mem_cons.mp h with h' | h'
      · exact h' ▸ List.mem_cons_self _ _
      · exact List.mem_cons_of_mem _ (ih n a h')

lemma mem_of_getElem?_eq_some {α : Type} :
    ∀ (l : List α) (i : Nat) (a : α), l[i]? = some a → a ∈ l := by
  intro l
  induction l with
  | nil => intro i a h; simp at h
  | cons x xs ih =>
    intro i a h
    cases i with
    | zero => simp at h; exact h ▸ List.mem_cons_self _ _
    | succ n => exact List.mem_cons_of_mem _ (ih n a (by simpa using h))

/-- One step from a state whose owned tokens are all fresh never panics and
leaves all owned tokens fresh. -/
lemma step_ok_of_fresh (a : Action) (st : ApiState)
    (h : ∀ t ∈ st.live, t.fresh) :
    ∃ st', step a st = .ok st' ∧ ∀ t ∈ st'.live, t.fresh := by
  cases a with
  | pushColor e r g b alp =>
    refine ⟨_, rfl, ?_⟩
    intro t ht
    rcases List.mem_append.mp ht with h' | h'
    · exact h _ h'
    · simp at h'
      subst h'
      simp [LiveToken.fresh, push_style_color]
  | pushVarF32 e v =>
    refine ⟨_, rfl, ?_⟩
    intro t ht
    rcases List.mem_append.mp ht with h' | h'
    · exact h _ h'
    · simp at h'
      subst h'
      simp [LiveToken.fresh, push_style_var_f32]
  | pushVarI32 e v =>
    refine ⟨_, rfl, ?_⟩
    intro t ht
    rcases List.mem_append.mp ht with h' | h'
    · exact h _ h'
    · simp at h'
      subst h'
      simp [LiveToken.fresh, push_style_var_i32]
  | pushVarVec2 e v =>
    refine ⟨_, rfl, ?_⟩
    intro t ht
    rcases List.mem_append.mp ht with h' | h'
    · exact h _ h'
    · simp at h'
      subst h'
      simp [LiveToken.fresh, push_style_var_imvec2]
  | popTok i =>
    cases hget : st.live[i]? with
    | none => exact ⟨st, by simp [step, hget], h⟩
    | some lt =>
      have hmem := mem_of_getElem?_eq_some st.live i lt hget
      have hfresh := h lt hmem
      cases lt with
      | colorTok t =>
        have hwp : t.was_popped = false := hfresh
        refine ⟨⟨ImPlot_PopStyleColor 1 st.engine, st.live.eraseIdx i⟩, ?_, ?_⟩
        · simp [step, hget, StyleColorToken.pop, hwp]
        · intro u hu
          exact h u (mem_of_mem_eraseIdx _ _ _ hu)
      | varTok t =>
        have hwp : t.was_popped = false := hfresh
        refine ⟨⟨ImPlot_PopStyleVar 1 st.engine, st.live.eraseIdx i⟩, ?_, ?_⟩
        · simp [step, hget, StyleVarToken.pop, hwp]
        · intro u hu
          exact h u (mem_of_mem_eraseIdx _ _ _ hu)

/-- Running any program from a state whose owned tokens are all fresh never
panics. -/
lemma runProgram_ok_of_fresh :
    ∀ (actions : List Action) (st : ApiState),
      (∀ t ∈ st.live, t.fresh) → ∃ st', runProgram actions st = .ok st' := by
  intro actions
  induction actions with
  | nil => intro st _; exact ⟨st, rfl⟩
  | cons a rest ih =>
    intro st h
    obtain ⟨st', hstep, hfresh⟩ := step_ok_of_fresh a st h
    obtain ⟨st'', hrun⟩ := ih st' hfresh
    exact ⟨st'', by simp [runProgram, hstep, hrun]⟩

-- --- Claim theorems ---------------------------------------------------------

/-- C1: `y_axis_choice_option_to_i32` is a pure total function that is
deterministic and injective on `{None, Some First, Some Second, Some Third}`:
each `Some` variant maps to its fixed non-negative native code, and `None`
maps to the single reserved negative sentinel `IMPLOT_AUTO = -1`, distinct
from all three concrete codes. -/
theorem y_axis_conversion_injective_and_sentinel :
    (∀ a b : Option YAxisChoice,
        y_axis_choice_option_to_i32 a = y_axis_choice_option_to_i32 b → a = b)
    ∧ y_axis_choice_option_to_i32 none = IMPLOT_AUTO
    ∧ IMPLOT_AUTO = -1
    ∧ (∀ c : YAxisChoice, 0 ≤ y_axis_choice_option_to_i32 (some c))
    ∧ (∀ c : YAxisChoice, y_axis_choice_option_to_i32 (some c) ≠ IMPLOT_AUTO) := by
  refine ⟨?_, rfl, rfl, ?_, ?_⟩ <;> decide

/-- Witness for C1: the injectivity component applied at a concrete pair,
together with the sentinel value evaluated concretely. -/
theorem y_axis_conversion_injective_and_sentinel_check :
    (some YAxisChoice.Second : Option YAxisChoice) = some YAxisChoice.Second
    ∧ y_axis_choice_option_to_i32 none = -1 :=
  ⟨y_axis_conversion_injective_and_sentinel.1 (some .Second) (some .Second) rfl,
   y_axis_conversion_injective_and_sentinel.2.1.trans
     y_axis_conversion_injective_and_sentinel.2.2.1⟩

/-- C2: popping a token whose consumed flag is already set is a fatal panic
(modelled as `.error` with the source's panic message) and issues no second
native pop, for both stack kinds. -/
theorem pop_of_consumed_token_is_fatal (tc : StyleColorToken)
    (tv : StyleVarToken) (s : EngineState)
    (hc : tc.was_popped = true) (hv : tv.was_popped = true) :
    StyleColorToken.pop tc s
        = .error "Attempted to pop a style color token twice."
    ∧ StyleVarToken.pop tv s
        = .error "Attempted to pop a style var token twice." := by
  constructor <;> simp [StyleColorToken.pop, StyleVarToken.pop, hc, hv]

/-- Witness for C2: both pops panic on a concrete consumed token. -/
theorem pop_of_consumed_token_is_fatal_check :
    StyleColorToken.pop ⟨true⟩ initialEngine
        = .error "Attempted to pop a style color token twice."
    ∧ StyleVarToken.pop ⟨true⟩ initialEngine
        = .error "Attempted to pop a style var token twice." :=
  pop_of_consumed_token_is_fatal ⟨true⟩ ⟨true⟩ initialEngine rfl rfl

/-- C3: pushing a color or variable override and immediately popping the
returned token leaves the engine's corresponding override stack exactly as it
was: the push grows the stack by one entry and the pop removes one entry. -/
theorem push_pop_roundtrip_stack_depth (element : PlotColorElement)
    (r g b a : F32) (ef ei ev : StyleVar) (vf : F32) (vi : Int) (vv : ImVec2)
    (s : EngineState) :
    ((push_style_color element r g b a s).2.colorStack.length
        = s.colorStack.length + 1
      ∧ ∃ s2, StyleColorToken.pop (push_style_color element r g b a s).1
            (push_style_color element r g b a s).2 = .ok s2
          ∧ s2.colorStack = s.colorStack)
    ∧ ((push_style_var_f32 ef vf s).2.varStack.length = s.varStack.length + 1
      ∧ ∃ s2, StyleVarToken.pop (push_style_var_f32 ef vf s).1
            (push_style_var_f32 ef vf s).2 = .ok s2
          ∧ s2.varStack = s.varStack)
    ∧ ((push_style_var_i32 ei vi s).2.varStack.length = s.varStack.length + 1
      ∧ ∃ s2, StyleVarToken.pop (push_style_var_i32 ei vi s).1
            (push_style_var_i32 ei vi s).2 = .ok s2
          ∧ s2.varStack = s.varStack)
    ∧ ((push_style_var_imvec2 ev vv s).2.varStack.length
        = s.varStack.length + 1
      ∧ ∃ s2, StyleVarToken.pop (push_style_var_imvec2 ev vv s).1
            (push_style_var_imvec2 ev vv s).2 = .ok s2
          ∧ s2.varStack = s.varStack) :=
  ⟨⟨rfl, _, rfl, rfl⟩, ⟨rfl, _, rfl, rfl⟩, ⟨rfl, _, rfl, rfl⟩,
   ⟨rfl, _, rfl, rfl⟩⟩

/-- C4: a non-panicking pop issues exactly one native pop with count 1,
targeting the stack matching the token's kind: `ImPlot_PopStyleColor(1)` for
color tokens, `ImPlot_PopStyleVar(1)` for variable tokens. -/
theorem pop_issues_one_matching_native_pop (tc : StyleColorToken)
    (tv : StyleVarToken) (s : EngineState)
    (hc : tc.was_popped = false) (hv : tv.was_popped = false) :
    (∃ s', StyleColorToken.pop tc s = .ok s'
        ∧ s'.calls = s.calls ++ [NativeCall.popStyleColor 1])
    ∧ (∃ s', StyleVarToken.pop tv s = .ok s'
        ∧ s'.calls = s.calls ++ [NativeCall.popStyleVar 1]) := by
  refine ⟨⟨ImPlot_PopStyleColor 1 s, ?_, rfl⟩,
          ⟨ImPlot_PopStyleVar 1 s, ?_, rfl⟩⟩ <;>
    simp [StyleColorToken.pop, StyleVarToken.pop, hc, hv]

/-- Witness for C4: both pops on a concrete fresh token log exactly one
count-1 pop on the matching stack. -/
theorem pop_issues_one_matching_native_pop_check :
    (∃ s', StyleColorToken.pop ⟨false⟩ initialEngine = .ok s'
        ∧ s'.calls = initialEngine.calls ++ [NativeCall.popStyleColor 1])
    ∧ (∃ s', StyleVarToken.pop ⟨false⟩ initialEngine = .ok s'
        ∧ s'.calls = initialEngine.calls ++ [NativeCall.popStyleVar 1]) :=
  pop_issues_one_matching_native_pop ⟨false⟩ ⟨false⟩ initialEngine rfl rfl

/-- C5: every axis-parameterized CoordinateBridge operation passes the engine
exactly the axis code `y_axis_choice_option_to_i32` computes from its
`Option YAxisChoice` argument — the shared helper is the single point of
truth for the sentinel mapping. -/
theorem axis_code_via_shared_helper (ax : Option YAxisChoice) (px : ImVec2)
    (fx fy : F32) (pp : ImPlotPoint) (dx dy : F64) (s : EngineState) :
    (get_plot_mouse_position ax s).2.calls
        = s.calls ++ [NativeCall.getPlotMousePos (y_axis_choice_option_to_i32 ax)]
    ∧ (pixels_to_plot_vec2 px ax s).2.calls
        = s.calls ++ [NativeCall.pixelsToPlotVec2 px (y_axis_choice_option_to_i32 ax)]
    ∧ (pixels_to_plot_f32 fx fy ax s).2.calls
        = s.calls ++ [NativeCall.pixelsToPlotFloat fx fy (y_axis_choice_option_to_i32 ax)]
    ∧ (plot_to_pixels_vec2 pp ax s).2.calls
        = s.calls ++ [NativeCall.plotToPixelsPoint pp (y_axis_choice_option_to_i32 ax)]
    ∧ (plot_to_pixels_f32 dx dy ax s).2.calls
        = s.calls ++ [NativeCall.plotToPixelsDouble dx dy (y_axis_choice_option_to_i32 ax)]
    ∧ (get_plot_limits ax s).2.calls
        = s.calls ++ [NativeCall.getPlotLimits (y_axis_choice_option_to_i32 ax)]
    ∧ (get_plot_query ax s).2.calls
        = s.calls ++ [NativeCall.getPlotQuery (y_axis_choice_option_to_i32 ax)]
    ∧ (is_plot_y_axis_hovered ax s).2.calls
        = s.calls ++ [NativeCall.isPlotYAxisHovered (y_axis_choice_option_to_i32 ax)] :=
  ⟨rfl, rfl, rfl, rfl, rfl, rfl, rfl, rfl⟩

/-- C6: before any plot bracket has run (`plot = none`), every
CoordinateBridge query returns its zero-initialized result structure without
fatally erroring, and leaves the no-bracket state intact, so repeated calls
return the same zeroed value. -/
theorem stale_query_returns_zeroed (ax : Option YAxisChoice) (px : ImVec2)
    (fx fy : F32) (pp : ImPlotPoint) (dx dy : F64) (s : EngineState)
    (h : s.plot = none) :
    (get_plot_mouse_position ax s).1 = { x := 0, y := 0 }
    ∧ (pixels_to_plot_vec2 px ax s).1 = { x := 0, y := 0 }
    ∧ (pixels_to_plot_f32 fx fy ax s).1 = { x := 0, y := 0 }
    ∧ (plot_to_pixels_vec2 pp ax s).1 = { x := 0, y := 0 }
    ∧ (plot_to_pixels_f32 dx dy ax s).1 = { x := 0, y := 0 }
    ∧ (get_plot_limits ax s).1 = zeroLimits
    ∧ (get_plot_query ax s).1 = zeroLimits
    ∧ (get_plot_mouse_position ax s).2.plot = none
    ∧ (get_plot_mouse_position ax ((get_plot_mouse_position ax s).2)).1
        = { x := 0, y := 0 }
    ∧ (get_plot_limits ax ((get_plot_limits ax s).2)).1 = zeroLimits := by
  refine ⟨?_, ?_, ?_, ?_, ?_, ?_, ?_, ?_, ?_, ?_⟩ <;>
    simp [get_plot_mouse_position, pixels_to_plot_vec2, pixels_to_plot_f32,
      plot_to_pixels_vec2, plot_to_pixels_f32, get_plot_limits, get_plot_query,
      ImPlot_GetPlotMousePos, ImPlot_PixelsToPlotVec2, ImPlot_PixelsToPlotFloat,
      ImPlot_PlotToPixelsPlotPoInt, ImPlot_PlotToPixelsdouble,
      ImPlot_GetPlotLimits, ImPlot_GetPlotQuery, h]

/-- Witness for C6: on the initial engine (no plot bracket ever ran), the
mouse-position query returns the zero point. -/
theorem stale_query_returns_zeroed_check :
    (get_plot_mouse_position none initialEngine).1 = { x := 0, y := 0 }
    ∧ (get_plot_limits none initialEngine).1 = zeroLimits := by
  have h := stale_query_returns_zeroed none ⟨0, 0⟩ 0 0 ⟨0, 0⟩ 0 0
    initialEngine rfl
  exact ⟨h.1, h.2.2.2.2.2.1⟩

/-- C7: every push entry point returns a fresh, not-yet-consumed token
(`was_popped = false`) for arbitrary argument values — including color
components outside `[0, 1]` — and has no failure path. -/
theorem push_returns_fresh_token (element : PlotColorElement) (r g b a : F32)
    (e1 e2 e3 : StyleVar) (vf : F32) (vi : Int) (vv : ImVec2)
    (s : EngineState) :
    (push_style_color element r g b a s).1.was_popped = false
    ∧ (push_style_var_f32 e1 vf s).1.was_popped = false
    ∧ (push_style_var_i32 e2 vi s).1.was_popped = false
    ∧ (push_style_var_imvec2 e3 vv s).1.was_popped = false :=
  ⟨rfl, rfl, rfl, rfl⟩

/-- C8: tokens have no drop behavior in this layer — dropping an unconsumed
token leaves the engine state (stacks and native-call log) entirely
unchanged, so the entry pushed for it stays on the engine's stack and no pop
is ever issued for it. -/
theorem unpopped_token_leaves_stack_entry (tc : StyleColorToken)
    (tv : StyleVarToken) (element : PlotColorElement) (r g b a : F32)
    (ev : StyleVar) (vf : F32) (s : EngineState) :
    StyleColorToken.dropUnused tc s = s
    ∧ StyleVarToken.dropUnused tv s = s
    ∧ (StyleColorToken.dropUnused (push_style_color element r g b a s).1
          (push_style_color element r g b a s).2).colorStack
        = (element.toNative, { x := r, y := g, z := b, w := a }) :: s.colorStack
    ∧ (StyleVarToken.dropUnused (push_style_var_f32 ev vf s).1
          (push_style_var_f32 ev vf s).2).varStack
        = .floatVal ev.toNative vf :: s.varStack
    ∧ (StyleColorToken.dropUnused (push_style_color element r g b a s).1
          (push_style_color element r g b a s).2).calls
        = s.calls ++ [NativeCall.pushStyleColorVec4 element.toNative
            { x := r, y := g, z := b, w := a }] :=
  ⟨rfl, rfl, rfl, rfl, rfl⟩

/-- C9: variable pushes are three separate entry points, one per payload
shape, each total for every `StyleVar` and each issuing exactly its own
shape's native push — no entry point consults the variable's documented
payload kind, so shape mismatches (e.g. a float push of the vec2-kind
`MajorTickLen` or int-kind `Marker`) are not detected. -/
theorem var_push_entry_points_unchecked (element : StyleVar) (vf : F32)
    (vi : Int) (vv : ImVec2) (s : EngineState) :
    ((push_style_var_f32 element vf s).1.was_popped = false
      ∧ (push_style_var_f32 element vf s).2.calls
          = s.calls ++ [NativeCall.pushStyleVarFloat element.toNative vf])
    ∧ ((push_style_var_i32 element vi s).1.was_popped = false
      ∧ (push_style_var_i32 element vi s).2.calls
          = s.calls ++ [NativeCall.pushStyleVarInt element.toNative vi])
    ∧ ((push_style_var_imvec2 element vv s).1.was_popped = false
      ∧ (push_style_var_imvec2 element vv s).2.calls
          = s.calls ++ [NativeCall.pushStyleVarVec2 element.toNative vv])
    ∧ StyleVar.kind StyleVar.MajorTickLen = StyleVarKind.vec2Kind
    ∧ StyleVar.kind StyleVar.Marker = StyleVarKind.intKind :=
  ⟨⟨rfl, rfl⟩, ⟨rfl, rfl⟩, ⟨rfl, rfl⟩, rfl, rfl⟩

/-- C10: through the safe public API the double-pop panic branch is
unreachable — every token is created with `was_popped = false` and `pop`
consumes its token, so any client program (any sequence of pushes and pops of
still-owned tokens) runs without ever panicking. -/
theorem safe_api_pop_never_panics (actions : List Action) (s : EngineState) :
    ∃ st', runProgram actions { engine := s, live := [] } = .ok st' :=
  runProgram_ok_of_fresh actions ⟨s, []⟩ (by intro t ht; simp at ht)

end Implot
